import Mathlib

/-!
Verification of the per-frame generation pipeline of Pixelle-Video
(`pixelle_video/services/frame_processor.py`).

The pipeline is embedded shallowly: every external capability (TTS, media
generation, HTTP download, HTML frame rendering, video muxing) is an oracle
field of an `Env` record returning `Except Err _`; the orchestrator and its
four steps are pure functions threading a `PTrace` that records the set of
files on disk, the emitted progress events, and the arguments of every
capability call.  Python truthiness of optional strings and floats (where the
source tests `if x:`) is modelled explicitly by `optStrTruthy` / `optRatTruthy`;
`is None` checks are modelled by `Option.isSome`/matching.  Durations are
rationals.
-/

namespace PV

/-- Python truthiness for an optional string: `None` and `""` are falsy. -/
def optStrTruthy : Option String → Bool
  | none => false
  | some s => decide (s ≠ "")

/-- Python truthiness for an optional number: `None` and `0.0` are falsy. -/
def optRatTruthy : Option ℚ → Bool
  | none => false
  | some q => decide (q ≠ 0)

/-- Check that the first list starts with the second. -/
def charsStartWith : List Char → List Char → Bool
  | _, [] => true
  | [], _ :: _ => false
  | c :: cs, d :: ds => c == d && charsStartWith cs ds

/-- Substring occurrence on character lists. -/
def charsContain : List Char → List Char → Bool
  | [], needle => needle.isEmpty
  | c :: cs, needle => charsStartWith (c :: cs) needle || charsContain cs needle

/-- Python's `needle in hay` substring test. -/
def strContains (hay needle : String) : Bool :=
  charsContain hay.data needle.data

/-- Python's `str.lower()` (ASCII case folding, as `String.toLower` performs,
written structurally so it evaluates). -/
def strToLower (s : String) : String :=
  String.mk (s.data.map Char.toLower)

/-- Modelled from the spec: `ProgressEvent` (models/progress.py is not in
src/); fields taken from spec §3 and the construction sites in
`frame_processor.py`. -/
structure ProgressEvent where
  event_type : String
  progress : ℚ
  frame_current : Nat
  frame_total : Nat
  step : Nat
  action : String
deriving Repr, DecidableEq

/-- Modelled from the spec: `StoryboardFrame` (models/storyboard.py is not in
src/); fields from spec §3. -/
structure StoryboardFrame where
  index : Nat
  narration : String
  image_prompt : Option String := none
  audio_path : Option String := none
  duration : Option ℚ := none
  image_path : Option String := none
  video_path : Option String := none
  media_type : Option String := none
  composed_image_path : Option String := none
  video_segment_path : Option String := none
deriving Repr, DecidableEq

/-- Modelled from the spec: the enclosing `Storyboard` (models/storyboard.py is
not in src/); only the fields read by the frame processor. -/
structure Storyboard where
  title : String
  content_metadata : Option String := none
deriving Repr, DecidableEq

/-- Modelled from the spec: `StoryboardConfig` (models/storyboard.py is not in
src/); fields from spec §3 and the reads in `frame_processor.py`. -/
structure StoryboardConfig where
  task_id : String
  tts_inference_mode : Option String := none
  tts_workflow : Option String := none
  voice_id : Option String := none
  tts_speed : Option ℚ := none
  ref_audio : Option String := none
  media_workflow : Option String := none
  media_width : Nat := 1024
  media_height : Nat := 1024
  frame_template : Option String := none
  template_params : List (String × String) := []
  video_fps : Nat := 30
  source_image_url : Option String := none
deriving Repr, DecidableEq

/-- Modelled from the spec: `MediaGenerationResult` — media kind, a remote URL,
and an optional duration (spec §3, §6). -/
structure MediaResult where
  media_type : String
  url : String
  duration : Option ℚ := none
deriving Repr, DecidableEq

/-- Modelled from the spec: the result-kind accessor used by
`_step_generate_media` (`media_result.is_image`). -/
def MediaResult.is_image (r : MediaResult) : Bool := r.media_type == "image"

/-- Modelled from the spec: the result-kind accessor used by
`_step_generate_media` (`media_result.is_video`). -/
def MediaResult.is_video (r : MediaResult) : Bool := r.media_type == "video"

/-- Errors raised by the pipeline.  `capabilityFailed`/`osError` stand for
exceptions surfaced by external collaborators; the remaining constructors are
the `ValueError`s raised by `frame_processor.py` itself, carrying the context
interpolated into the Python message. -/
inductive Err where
  | capabilityFailed (msg : String)
  | osError (msg : String)
  | i2vMissingImage (workflow : String) (frameIndex : Nat)
  | unknownMediaType (mt : String)
  | noVideoAvailable (frameIndex : Nat)
  | noImageAvailable (frameIndex : Nat)
deriving Repr, DecidableEq

deriving instance DecidableEq for Except

/-- Keyword arguments assembled by `_step_generate_audio` for `core.tts`. -/
structure TtsParams where
  text : String
  inference_mode : Option String
  output_path : String
  index : Nat
  workflow : Option String := none
  voice : Option String := none
  speed : Option ℚ := none
  ref_audio : Option String := none
deriving Repr, DecidableEq

/-- Keyword arguments assembled by `_step_generate_media` for `core.media`. -/
structure MediaParams where
  prompt : Option String
  workflow : Option String
  media_type : String
  width : Nat
  height : Nat
  index : Nat
  duration : Option ℚ := none
  image_url : Option String := none
deriving Repr, DecidableEq

/-- Arguments of `HTMLFrameGenerator.generate_frame` in `_compose_frame_html`. -/
structure RenderArgs where
  template : String
  title : String
  text : String
  image : Option String
  ext : List (String × String)
  output_path : String
deriving Repr, DecidableEq

/-- Arguments of `VideoService.overlay_image_on_video`. -/
structure OverlayArgs where
  video : Option String
  overlay_image : Option String
  output : String
  scale_mode : String
deriving Repr, DecidableEq

/-- Arguments of `VideoService.merge_audio_video`. -/
structure MergeArgs where
  video : String
  audio : String
  output : String
  replace_audio : Bool
  audio_volume : ℚ
deriving Repr, DecidableEq

/-- Arguments of `VideoService.create_video_from_image`. -/
structure CreateArgs where
  image : String
  audio : Option String
  output : String
  fps : Nat
  duration : Option ℚ := none
deriving Repr, DecidableEq

/-- One recorded call to the video service. -/
inductive VCall where
  | overlay (a : OverlayArgs)
  | merge (a : MergeArgs)
  | copy (src dst : String)
  | create (a : CreateArgs)
deriving Repr, DecidableEq

/-- Oracle for every external capability consumed by the frame processor
(spec §6).  A `probeFormatDuration` of `none` models an `ffmpeg.probe`
failure; `getsize` models `os.path.getsize`, which can itself raise. -/
structure Env where
  tts : TtsParams → Except Err String
  probeFormatDuration : String → Option ℚ
  getsize : String → Except Err Nat
  http_get : String → Except Err Unit
  media : MediaParams → Except Err MediaResult
  render_frame : RenderArgs → Except Err String
  overlay_image_on_video : OverlayArgs → Except Err Unit
  merge_audio_video : MergeArgs → Except Err String
  copy2 : String → String → Except Err Unit
  create_video_from_image : CreateArgs → Except Err String

/-- Observable trace threaded through the pipeline: the set of files on disk,
the progress events delivered to the callback, and the arguments of every
media-generation, frame-render and video-service call. -/
structure PTrace where
  fs : List String
  events : List ProgressEvent
  mediaCalls : List MediaParams
  renderCalls : List RenderArgs
  videoCalls : List VCall
deriving Repr, DecidableEq

def emptyTrace : PTrace :=
  { fs := [], events := [], mediaCalls := [], renderCalls := [], videoCalls := [] }

/-- Modelled from the spec: `get_task_frame_path` (utils/os_util.py is not in
src/) — the deterministic, collision-free per-(task, frame, kind) output path
of spec §6 `allocateFramePath`. -/
def get_task_frame_path (task_id : String) (frameIndex : Nat) (kind : String) : String :=
  task_id ++ "/" ++ toString frameIndex ++ "_" ++ kind

/-- Modelled from the spec: `resolve_template_path` (utils/template_util.py is
not in src/) — resolves a template identifier to a path; identified here with
the identifier itself, which is all the claims need. -/
def resolve_template_path (t : String) : String := t

/-- The workflow name used for kind classification:
`workflow_name = config.media_workflow or ""`. -/
def workflowName (config : StoryboardConfig) : String :=
  config.media_workflow.getD ""

/-- `_get_audio_duration`: probe the container; on probe failure fall back to
`max(1.0, os.path.getsize(path) / 2000)` — where the size query itself can
raise (it sits inside the `except` handler and any `OSError` propagates). -/
def get_audio_duration (env : Env) (audio_path : String) : Except Err ℚ :=
  match env.probeFormatDuration audio_path with
  | some d => .ok d
  | none =>
    match env.getsize audio_path with
    | .ok file_size => .ok (max 1 ((file_size : ℚ) / 2000))
    | .error e => .error e

/-- `_get_video_duration`: probe the container; on probe failure return the
fixed default `1.0`. -/
def get_video_duration (env : Env) (video_path : String) : ℚ :=
  match env.probeFormatDuration video_path with
  | some d => d
  | none => 1

/-- `_download_media`: HTTP GET the URL and write the body to the
per-(task, frame, kind) path; a non-success status is fatal. -/
def download_media (env : Env) (t : PTrace) (url : String) (frame_index : Nat)
    (task_id : String) (media_type : String) : PTrace × Except Err String :=
  let output_path := get_task_frame_path task_id frame_index media_type
  match env.http_get url with
  | .error e => (t, .error e)
  | .ok _ => ({ t with fs := output_path :: t.fs }, .ok output_path)

/-- The TTS keyword arguments built by `_step_generate_audio` (mode-specific:
local mode forwards voice/speed, otherwise workflow/voice/speed/ref_audio;
string options are forwarded only when truthy, speed only when not `None`). -/
def buildTtsParams (frame : StoryboardFrame) (config : StoryboardConfig)
    (output_path : String) : TtsParams :=
  let base : TtsParams :=
    { text := frame.narration, inference_mode := config.tts_inference_mode,
      output_path := output_path, index := frame.index + 1 }
  if config.tts_inference_mode == some "local" then
    { base with
      voice := if optStrTruthy config.voice_id then config.voice_id else none,
      speed := config.tts_speed }
  else
    { base with
      workflow := if optStrTruthy config.tts_workflow then config.tts_workflow else none,
      voice := if optStrTruthy config.voice_id then config.voice_id else none,
      speed := config.tts_speed,
      ref_audio := if optStrTruthy config.ref_audio then config.ref_audio else none }

/-- Step 1, `_step_generate_audio`: invoke TTS with the built parameters,
record the audio path and probe its duration. -/
def step_generate_audio (env : Env) (t : PTrace) (frame : StoryboardFrame)
    (config : StoryboardConfig) : PTrace × Except Err StoryboardFrame :=
  let output_path := get_task_frame_path config.task_id frame.index "audio"
  match env.tts (buildTtsParams frame config output_path) with
  | .error e => (t, .error e)
  | .ok audio_path =>
    let t1 : PTrace := { t with fs := audio_path :: t.fs }
    match get_audio_duration env audio_path with
    | .error e => (t1, .error e)
    | .ok d =>
      (t1, .ok { frame with audio_path := some audio_path, duration := some d })

/-- The media-generation keyword arguments built by `_step_generate_media`:
kind classified by the `"video_"`/`"i2v_"` substrings of the lower-cased
workflow name; for video kind a truthy frame duration is threaded through; for
I2V a truthy source image URL is attached. -/
def buildMediaParams (frame : StoryboardFrame) (config : StoryboardConfig) : MediaParams :=
  let wn := strToLower (workflowName config)
  let is_video_workflow := strContains wn "video_" || strContains wn "i2v_"
  let base : MediaParams :=
    { prompt := frame.image_prompt, workflow := config.media_workflow,
      media_type := if is_video_workflow then "video" else "image",
      width := config.media_width, height := config.media_height,
      index := frame.index + 1 }
  let withDur :=
    if is_video_workflow && optRatTruthy frame.duration then
      { base with duration := frame.duration }
    else base
  if strContains wn "i2v_" && optStrTruthy config.source_image_url then
    { withDur with image_url := config.source_image_url }
  else withDur

/-- Step 2, `_step_generate_media`: raise a configuration error for an I2V
workflow without a source image URL (before calling the capability); otherwise
call `core.media`, download the result and update the frame per the returned
kind, adopting the result's own (truthy) duration for video or probing the
downloaded file. -/
def step_generate_media (env : Env) (t : PTrace) (frame : StoryboardFrame)
    (config : StoryboardConfig) : PTrace × Except Err StoryboardFrame :=
  let wn := strToLower (workflowName config)
  if strContains wn "i2v_" && ! optStrTruthy config.source_image_url then
    (t, .error (.i2vMissingImage (workflowName config) frame.index))
  else
    let p := buildMediaParams frame config
    let t1 : PTrace := { t with mediaCalls := t.mediaCalls ++ [p] }
    match env.media p with
    | .error e => (t1, .error e)
    | .ok media_result =>
      let frame1 := { frame with media_type := some media_result.media_type }
      if media_result.is_image then
        let dl := download_media env t1 media_result.url frame.index config.task_id "image"
        match dl.2 with
        | .error e => (dl.1, .error e)
        | .ok local_path =>
          (dl.1, .ok { frame1 with image_path := some local_path })
      else if media_result.is_video then
        let dl := download_media env t1 media_result.url frame.index config.task_id "video"
        match dl.2 with
        | .error e => (dl.1, .error e)
        | .ok local_path =>
          let frame2 := { frame1 with video_path := some local_path }
          if optRatTruthy media_result.duration then
            (dl.1, .ok { frame2 with duration := media_result.duration })
          else
            (dl.1, .ok { frame2 with duration := some (get_video_duration env local_path) })
      else
        (t1, .error (.unknownMediaType media_result.media_type))

/-- The render arguments assembled by `_compose_frame_html`: resolved template,
storyboard title, narration text, the kind-appropriate media path
(`frame.video_path if frame.media_type == "video" else frame.image_path`),
ext metadata (1-based index plus caller template params), and the composed
output path. -/
def buildRenderArgs (frame : StoryboardFrame) (sb : Storyboard)
    (config : StoryboardConfig) (templ : String) : RenderArgs :=
  { template := resolve_template_path templ, title := sb.title,
    text := frame.narration,
    image := if frame.media_type == some "video" then frame.video_path else frame.image_path,
    ext := ("index", toString (frame.index + 1)) :: config.template_params,
    output_path := get_task_frame_path config.task_id frame.index "composed" }

/-- Step 3, `_step_compose_frame`: with no template configured, pass raw media
through (composed path := raw image path for truthy-image frames, unset
otherwise); with a template, render the HTML overlay over the kind-appropriate
media path. -/
def step_compose_frame (env : Env) (t : PTrace) (frame : StoryboardFrame)
    (sb : Storyboard) (config : StoryboardConfig) : PTrace × Except Err StoryboardFrame :=
  match config.frame_template with
  | none =>
    if frame.media_type == some "video" && optStrTruthy frame.video_path then
      (t, .ok { frame with composed_image_path := none })
    else if frame.media_type == some "image" && optStrTruthy frame.image_path then
      (t, .ok { frame with composed_image_path := frame.image_path })
    else
      (t, .ok { frame with composed_image_path := none })
  | some templ =>
    let args := buildRenderArgs frame sb config templ
    let t1 : PTrace := { t with renderCalls := t.renderCalls ++ [args] }
    match env.render_frame args with
    | .error e => (t1, .error e)
    | .ok composed_path =>
      ({ t1 with fs := composed_path :: t1.fs },
       .ok { frame with composed_image_path := some composed_path })

/-- The image actually used by image-kind segment assembly:
`frame.composed_image_path if frame.composed_image_path else frame.image_path`. -/
def imageToUse (frame : StoryboardFrame) : Option String :=
  if optStrTruthy frame.composed_image_path then frame.composed_image_path
  else frame.image_path

/-- The temporary overlay-composited intermediate file of step 4. -/
def overlayTempPath (config : StoryboardConfig) (frameIndex : Nat) : String :=
  get_task_frame_path config.task_id frameIndex "video" ++ "_overlay.mp4"

/-- Step 4, `_step_create_video_segment`: video kind overlays the composed
image (when present) into a temporary `_overlay.mp4` file, then merges TTS
audio (replacing the native track) or copies the video through; cleanup of the
temporary file happens only on the non-exception path.  Image/unset kind
synthesizes a video from the composed-or-raw image, with the audio track or as
a silent clip of the frame's (truthy) duration, default 5 seconds. -/
def step_create_video_segment (env : Env) (t : PTrace) (frame : StoryboardFrame)
    (config : StoryboardConfig) : PTrace × Except Err StoryboardFrame :=
  let output_path := get_task_frame_path config.task_id frame.index "segment"
  if frame.media_type == some "video" then
    let has_template := frame.composed_image_path.isSome
    let temp := overlayTempPath config frame.index
    let overlayRes : PTrace × Except Err String :=
      if has_template then
        let args : OverlayArgs :=
          { video := frame.video_path, overlay_image := frame.composed_image_path,
            output := temp, scale_mode := "contain" }
        let ta : PTrace := { t with videoCalls := t.videoCalls ++ [.overlay args] }
        match env.overlay_image_on_video args with
        | .error e => (ta, .error e)
        | .ok _ => ({ ta with fs := temp :: ta.fs }, .ok temp)
      else
        if optStrTruthy frame.video_path then (t, .ok (frame.video_path.getD ""))
        else (t, .error (.noVideoAvailable frame.index))
    match overlayRes.2 with
    | .error e => (overlayRes.1, .error e)
    | .ok video_to_use =>
      let t1 := overlayRes.1
      let audioRes : PTrace × Except Err String :=
        if optStrTruthy frame.audio_path then
          let args : MergeArgs :=
            { video := video_to_use, audio := frame.audio_path.getD "",
              output := output_path, replace_audio := true, audio_volume := 1 }
          let tm : PTrace := { t1 with videoCalls := t1.videoCalls ++ [.merge args] }
          match env.merge_audio_video args with
          | .error e => (tm, .error e)
          | .ok segment_path => ({ tm with fs := segment_path :: tm.fs }, .ok segment_path)
        else
          let tc : PTrace := { t1 with videoCalls := t1.videoCalls ++ [.copy video_to_use output_path] }
          match env.copy2 video_to_use output_path with
          | .error e => (tc, .error e)
          | .ok _ => ({ tc with fs := output_path :: tc.fs }, .ok output_path)
      match audioRes.2 with
      | .error e => (audioRes.1, .error e)
      | .ok segment_path =>
        let t2 := audioRes.1
        let t3 : PTrace :=
          if has_template then
            if temp ∈ t2.fs then { t2 with fs := t2.fs.filter (· ≠ temp) } else t2
          else t2
        (t3, .ok { frame with video_segment_path := some segment_path })
  else if frame.media_type == some "image" || frame.media_type == none then
    let image_to_use := imageToUse frame
    if ! optStrTruthy image_to_use then
      (t, .error (.noImageAvailable frame.index))
    else if optStrTruthy frame.audio_path then
      let args : CreateArgs :=
        { image := image_to_use.getD "", audio := frame.audio_path,
          output := output_path, fps := config.video_fps, duration := none }
      let ta : PTrace := { t with videoCalls := t.videoCalls ++ [.create args] }
      match env.create_video_from_image args with
      | .error e => (ta, .error e)
      | .ok segment_path =>
        ({ ta with fs := segment_path :: ta.fs },
         .ok { frame with video_segment_path := some segment_path })
    else
      let default_duration := if optRatTruthy frame.duration then frame.duration.getD 0 else 5
      let args : CreateArgs :=
        { image := image_to_use.getD "", audio := none,
          output := output_path, fps := config.video_fps, duration := some default_duration }
      let ta : PTrace := { t with videoCalls := t.videoCalls ++ [.create args] }
      match env.create_video_from_image args with
      | .error e => (ta, .error e)
      | .ok segment_path =>
        ({ ta with fs := segment_path :: ta.fs },
         .ok { frame with video_segment_path := some segment_path })
  else
    (t, .error (.unknownMediaType (frame.media_type.getD "")))

/-- Exception propagation between pipeline steps: on error the step sequence is
aborted with the trace at the failure point (a raised Python exception
propagates out of `__call__`). -/
def pstep (r : PTrace × Except Err StoryboardFrame)
    (g : PTrace → StoryboardFrame → PTrace × Except Err StoryboardFrame) :
    PTrace × Except Err StoryboardFrame :=
  match r.2 with
  | .error e => (r.1, .error e)
  | .ok fr => g r.1 fr

/-- `FrameProcessor.__call__`: the four-step orchestrator.  Progress events are
appended exactly where the source invokes the callback (before step 1 only when
TTS runs, before step 2 only when generation is needed, always before steps 3
and 4), with the source's literal progress fractions. -/
def process (env : Env) (frame0 : StoryboardFrame) (sb : Storyboard)
    (config : StoryboardConfig) (total_frames : Nat) (t : PTrace) :
    PTrace × Except Err StoryboardFrame :=
  let frame_num := frame0.index + 1
  let has_existing_media := frame0.image_path.isSome || frame0.video_path.isSome
  let needs_generation := frame0.image_prompt.isSome
  let s1 : PTrace × Except Err StoryboardFrame :=
    if ! optStrTruthy frame0.audio_path && optStrTruthy config.tts_inference_mode then
      let t1 : PTrace := { t with events := t.events ++
        [{ event_type := "frame_step", progress := 0, frame_current := frame_num,
           frame_total := total_frames, step := 1, action := "audio" }] }
      step_generate_audio env t1 frame0 config
    else (t, .ok frame0)
  pstep s1 fun t1 frame1 =>
    let s2 : PTrace × Except Err StoryboardFrame :=
      if needs_generation then
        let t2 : PTrace := { t1 with events := t1.events ++
          [{ event_type := "frame_step", progress := 1/4, frame_current := frame_num,
             frame_total := total_frames, step := 2, action := "media" }] }
        step_generate_media env t2 frame1 config
      else if has_existing_media then (t1, .ok frame1)
      else (t1, .ok { frame1 with image_path := none, media_type := none })
    pstep s2 fun t2 frame2 =>
      let t3 : PTrace := { t2 with events := t2.events ++
        [{ event_type := "frame_step",
           progress := if needs_generation || has_existing_media then 1/2 else 33/100,
           frame_current := frame_num, frame_total := total_frames,
           step := 3, action := "compose" }] }
      pstep (step_compose_frame env t3 frame2 sb config) fun t4 frame3 =>
        let t5 : PTrace := { t4 with events := t4.events ++
          [{ event_type := "frame_step",
             progress := if needs_generation || has_existing_media then 3/4 else 67/100,
             frame_current := frame_num, frame_total := total_frames,
             step := 4, action := "video" }] }
        step_create_video_segment env t5 frame3 config

theorem audio_events_eq (env : Env) (t : PTrace) (f : StoryboardFrame) (c : StoryboardConfig) :
    ((step_generate_audio env t f c).1).events = t.events := by
  simp only [step_generate_audio]
  split
  · rfl
  · split <;> rfl

theorem audio_mediaCalls_eq (env : Env) (t : PTrace) (f : StoryboardFrame) (c : StoryboardConfig) :
    ((step_generate_audio env t f c).1).mediaCalls = t.mediaCalls := by
  simp only [step_generate_audio]
  split
  · rfl
  · split <;> rfl

theorem audio_renderCalls_eq (env : Env) (t : PTrace) (f : StoryboardFrame) (c : StoryboardConfig) :
    ((step_generate_audio env t f c).1).renderCalls = t.renderCalls := by
  simp only [step_generate_audio]
  split
  · rfl
  · split <;> rfl

theorem audio_frame_ok (env : Env) (t : PTrace) (f : StoryboardFrame) (c : StoryboardConfig)
    (f' : StoryboardFrame) (h : (step_generate_audio env t f c).2 = Except.ok f') :
    ∃ a d, f' = { f with audio_path := some a, duration := some d } := by
  revert h
  simp only [step_generate_audio]
  split
  · intro h; cases h
  · split
    · intro h; cases h
    · intro h
      cases h
      exact ⟨_, _, rfl⟩

theorem download_events_eq (env : Env) (t : PTrace) (u : String) (i : Nat) (task k : String) :
    ((download_media env t u i task k).1).events = t.events := by
  simp only [download_media]
  split <;> rfl

theorem download_mediaCalls_eq (env : Env) (t : PTrace) (u : String) (i : Nat) (task k : String) :
    ((download_media env t u i task k).1).mediaCalls = t.mediaCalls := by
  simp only [download_media]
  split <;> rfl

theorem download_renderCalls_eq (env : Env) (t : PTrace) (u : String) (i : Nat) (task k : String) :
    ((download_media env t u i task k).1).renderCalls = t.renderCalls := by
  simp only [download_media]
  split <;> rfl

theorem download_videoCalls_eq (env : Env) (t : PTrace) (u : String) (i : Nat) (task k : String) :
    ((download_media env t u i task k).1).videoCalls = t.videoCalls := by
  simp only [download_media]
  split <;> rfl

theorem media_events_eq (env : Env) (t : PTrace) (f : StoryboardFrame) (c : StoryboardConfig) :
    ((step_generate_media env t f c).1).events = t.events := by
  simp only [step_generate_media]
  repeat' split
  all_goals simp [download_events_eq]

theorem media_renderCalls_eq (env : Env) (t : PTrace) (f : StoryboardFrame) (c : StoryboardConfig) :
    ((step_generate_media env t f c).1).renderCalls = t.renderCalls := by
  simp only [step_generate_media]
  repeat' split
  all_goals simp [download_renderCalls_eq]

theorem compose_events_eq (env : Env) (t : PTrace) (f : StoryboardFrame) (sb : Storyboard)
    (c : StoryboardConfig) :
    ((step_compose_frame env t f sb c).1).events = t.events := by
  simp only [step_compose_frame]
  repeat' split
  all_goals rfl

theorem compose_mediaCalls_eq (env : Env) (t : PTrace) (f : StoryboardFrame) (sb : Storyboard)
    (c : StoryboardConfig) :
    ((step_compose_frame env t f sb c).1).mediaCalls = t.mediaCalls := by
  simp only [step_compose_frame]
  repeat' split
  all_goals rfl

theorem segment_events_eq (env : Env) (t : PTrace) (f : StoryboardFrame) (c : StoryboardConfig) :
    ((step_create_video_segment env t f c).1).events = t.events := by
  simp only [step_create_video_segment]
  repeat' split
  all_goals rfl

theorem segment_mediaCalls_eq (env : Env) (t : PTrace) (f : StoryboardFrame) (c : StoryboardConfig) :
    ((step_create_video_segment env t f c).1).mediaCalls = t.mediaCalls := by
  simp only [step_create_video_segment]
  repeat' split
  all_goals rfl

theorem segment_renderCalls_eq (env : Env) (t : PTrace) (f : StoryboardFrame) (c : StoryboardConfig) :
    ((step_create_video_segment env t f c).1).renderCalls = t.renderCalls := by
  simp only [step_create_video_segment]
  repeat' split
  all_goals rfl

theorem pstep_err (r : PTrace × Except Err StoryboardFrame)
    (g : PTrace → StoryboardFrame → PTrace × Except Err StoryboardFrame) (e : Err)
    (h : r.2 = Except.error e) : pstep r g = (r.1, Except.error e) := by
  simp [pstep, h]

theorem pstep_ok (r : PTrace × Except Err StoryboardFrame)
    (g : PTrace → StoryboardFrame → PTrace × Except Err StoryboardFrame)
    (f1 : StoryboardFrame) (h : r.2 = Except.ok f1) : pstep r g = g r.1 f1 := by
  simp [pstep, h]

theorem compose_frame_ok (env : Env) (t : PTrace) (f : StoryboardFrame) (sb : Storyboard)
    (c : StoryboardConfig) (f' : StoryboardFrame)
    (h : (step_compose_frame env t f sb c).2 = Except.ok f') :
    ∃ o, f' = { f with composed_image_path := o } := by
  revert h
  simp only [step_compose_frame]
  repeat' split
  all_goals intro h
  all_goals try cases h
  all_goals exact ⟨_, rfl⟩

theorem segment_frame_ok (env : Env) (t : PTrace) (f : StoryboardFrame) (c : StoryboardConfig)
    (f' : StoryboardFrame)
    (h : (step_create_video_segment env t f c).2 = Except.ok f') :
    ∃ s, f' = { f with video_segment_path := some s } := by
  revert h
  simp only [step_create_video_segment]
  repeat' split
  all_goals intro h
  all_goals try cases h
  all_goals exact ⟨_, rfl⟩

theorem audio_ok (env : Env) (t : PTrace) (f : StoryboardFrame) (c : StoryboardConfig)
    (htts : ∀ pa, ∃ a, env.tts pa = Except.ok a)
    (hprobe : ∀ s, ∃ d, env.probeFormatDuration s = some d) :
    ∃ a d, step_generate_audio env t f c
      = ({ t with fs := a :: t.fs },
         Except.ok { f with audio_path := some a, duration := some d }) := by
  obtain ⟨a, ha⟩ := htts (buildTtsParams f c (get_task_frame_path c.task_id f.index "audio"))
  obtain ⟨d, hd⟩ := hprobe a
  refine ⟨a, d, ?_⟩
  simp [step_generate_audio, ha, get_audio_duration, hd]

theorem media_i2v_error (env : Env) (t : PTrace) (f : StoryboardFrame) (c : StoryboardConfig)
    (hw : strContains (strToLower (workflowName c)) "i2v_" = true)
    (hurl : optStrTruthy c.source_image_url = false) :
    step_generate_media env t f c = (t, Except.error (.i2vMissingImage (workflowName c) f.index)) := by
  simp [step_generate_media, hw, hurl]

theorem media_calls_eq (env : Env) (t : PTrace) (f : StoryboardFrame) (c : StoryboardConfig)
    (hi2v : strContains (strToLower (workflowName c)) "i2v_" = true →
      optStrTruthy c.source_image_url = true) :
    ((step_generate_media env t f c).1).mediaCalls = t.mediaCalls ++ [buildMediaParams f c] := by
  simp only [step_generate_media]
  split
  · next h =>
    rw [Bool.and_eq_true, Bool.not_eq_true'] at h
    rw [hi2v h.1] at h
    cases h.2
  · repeat' split
    all_goals simp [download_mediaCalls_eq]

theorem download_ok (env : Env) (t : PTrace) (u : String) (i : Nat) (task k : String)
    (h : env.http_get u = Except.ok ()) :
    download_media env t u i task k
      = ({ t with fs := get_task_frame_path task i k :: t.fs },
         Except.ok (get_task_frame_path task i k)) := by
  simp [download_media, h]

theorem buildMediaParams_duration (f : StoryboardFrame) (c : StoryboardConfig) (D : ℚ)
    (hvid : (strContains (strToLower (workflowName c)) "video_"
      || strContains (strToLower (workflowName c)) "i2v_") = true)
    (hd : f.duration = some D) (hD : D ≠ 0) :
    (buildMediaParams f c).duration = some D := by
  simp only [buildMediaParams, hvid, hd, optRatTruthy]
  simp [hD]
  split <;> rfl

theorem media_ok_video (env : Env) (t : PTrace) (f : StoryboardFrame) (c : StoryboardConfig)
    (r : MediaResult)
    (hi2v : strContains (strToLower (workflowName c)) "i2v_" = true →
      optStrTruthy c.source_image_url = true)
    (hm : env.media (buildMediaParams f c) = Except.ok r)
    (hv : r.media_type = "video")
    (hh : env.http_get r.url = Except.ok ()) :
    step_generate_media env t f c
      = ({ t with
            mediaCalls := t.mediaCalls ++ [buildMediaParams f c]
            fs := get_task_frame_path c.task_id f.index "video" :: t.fs },
         Except.ok { f with
            media_type := some "video"
            video_path := some (get_task_frame_path c.task_id f.index "video")
            duration := if optRatTruthy r.duration then r.duration
              else some (get_video_duration env (get_task_frame_path c.task_id f.index "video")) }) := by
  have hcond : (strContains (strToLower (workflowName c)) "i2v_"
      && ! optStrTruthy c.source_image_url) = false := by
    rcases hI : strContains (strToLower (workflowName c)) "i2v_"
    · simp
    · simp [hi2v hI]
  simp [step_generate_media, hcond, hm, MediaResult.is_image, MediaResult.is_video, hv,
    download_ok env _ r.url f.index c.task_id "video" hh]
  split <;> simp [*]

theorem media_ok_image (env : Env) (t : PTrace) (f : StoryboardFrame) (c : StoryboardConfig)
    (r : MediaResult)
    (hi2v : strContains (strToLower (workflowName c)) "i2v_" = true →
      optStrTruthy c.source_image_url = true)
    (hm : env.media (buildMediaParams f c) = Except.ok r)
    (hv : r.media_type = "image")
    (hh : env.http_get r.url = Except.ok ()) :
    step_generate_media env t f c
      = ({ t with
            mediaCalls := t.mediaCalls ++ [buildMediaParams f c]
            fs := get_task_frame_path c.task_id f.index "image" :: t.fs },
         Except.ok { f with
            media_type := some "image"
            image_path := some (get_task_frame_path c.task_id f.index "image") }) := by
  have hcond : (strContains (strToLower (workflowName c)) "i2v_"
      && ! optStrTruthy c.source_image_url) = false := by
    rcases hI : strContains (strToLower (workflowName c)) "i2v_"
    · simp
    · simp [hi2v hI]
  simp [step_generate_media, hcond, hm, MediaResult.is_image, MediaResult.is_video, hv,
    download_ok env _ r.url f.index c.task_id "image" hh]

theorem segment_cleanup (env : Env) (t : PTrace) (f : StoryboardFrame) (c : StoryboardConfig)
    (t' : PTrace) (f' : StoryboardFrame)
    (hv : f.media_type = some "video")
    (hc : f.composed_image_path.isSome = true)
    (hs : step_create_video_segment env t f c = (t', Except.ok f')) :
    overlayTempPath c f.index ∉ t'.fs := by
  revert hs
  simp only [step_create_video_segment, hv, hc, beq_self_eq_true, if_true, eq_self_iff_true]
  rcases ho : env.overlay_image_on_video
      { video := f.video_path, overlay_image := f.composed_image_path,
        output := overlayTempPath c f.index, scale_mode := "contain" } with e | u
  · simp only [ho]
    intro hs
    exact absurd (congrArg Prod.snd hs) (by simp)
  · simp only [ho]
    cases hA : optStrTruthy f.audio_path with
    | true =>
      simp only [hA, eq_self_iff_true, if_true]
      rcases hM : env.merge_audio_video
          { video := overlayTempPath c f.index, audio := f.audio_path.getD "",
            output := get_task_frame_path c.task_id f.index "segment",
            replace_audio := true, audio_volume := 1 } with e | seg
      · simp only [hM]
        intro hs
        exact absurd (congrArg Prod.snd hs) (by simp)
      · simp only [hM]
        split
        · intro hs
          cases hs
          simp [List.mem_filter]
        · next hnot =>
          intro hs
          cases hs
          exact hnot
    | false =>
      simp only [hA, Bool.false_eq_true, if_false]
      rcases hC : env.copy2 (overlayTempPath c f.index)
          (get_task_frame_path c.task_id f.index "segment") with e | u2
      · simp only [hC]
        intro hs
        exact absurd (congrArg Prod.snd hs) (by simp)
      · simp only [hC]
        split
        · intro hs
          cases hs
          simp [List.mem_filter]
        · next hnot =>
          intro hs
          cases hs
          exact hnot

theorem pstep_ok_elim (r : PTrace × Except Err StoryboardFrame)
    (g : PTrace → StoryboardFrame → PTrace × Except Err StoryboardFrame)
    (t' : PTrace) (f' : StoryboardFrame)
    (h : pstep r g = (t', Except.ok f')) :
    ∃ f1, r.2 = Except.ok f1 ∧ g r.1 f1 = (t', Except.ok f') := by
  revert h
  unfold pstep
  split
  · intro h
    exact absurd (congrArg Prod.snd h) (by simp)
  · next fr heq =>
    intro h
    exact ⟨fr, heq, h⟩

theorem compose_template_isSome (env : Env) (t : PTrace) (f : StoryboardFrame)
    (sb : Storyboard) (c : StoryboardConfig) (tp : String) (f' : StoryboardFrame)
    (h2 : c.frame_template = some tp)
    (h : (step_compose_frame env t f sb c).2 = Except.ok f') :
    f'.composed_image_path.isSome = true := by
  revert h
  simp only [step_compose_frame, h2]
  split
  · intro h
    cases h
  · intro h
    cases h
    rfl

/-! Concrete oracles and inputs used by counterexamples and witnesses. -/

def sbW : Storyboard := { title := "T" }

def envOk : Env :=
  { tts := fun _ => .ok "tts.mp3"
    probeFormatDuration := fun _ => some 3
    getsize := fun _ => .ok 4000
    http_get := fun _ => .ok ()
    media := fun _ => .ok { media_type := "image", url := "u" }
    render_frame := fun a => .ok a.output_path
    overlay_image_on_video := fun _ => .ok ()
    merge_audio_video := fun a => .ok a.output
    copy2 := fun _ _ => .ok ()
    create_video_from_image := fun a => .ok a.output }

def fVid : StoryboardFrame :=
  { index := 0, narration := "hi", audio_path := some "a.mp3",
    video_path := some "v.mp4", media_type := some "video" }

def cTpl : StoryboardConfig := { task_id := "task", frame_template := some "t.html" }

def envProbeFail : Env :=
  { envOk with
    probeFormatDuration := fun _ => none
    getsize := fun _ => .error (.osError "No such file") }

def envNoProbe : Env :=
  { envOk with
    probeFormatDuration := fun _ => none
    getsize := fun _ => .ok 5000 }

def envMergeFail : Env :=
  { envOk with merge_audio_video := fun _ => .error (.capabilityFailed "merge failed") }

def fVidDone : StoryboardFrame :=
  { index := 0, narration := "hi", image_prompt := none, audio_path := some "a.mp3",
    duration := none, image_path := none, video_path := some "v.mp4",
    media_type := some "video", composed_image_path := some "task/0_composed",
    video_segment_path := some "task/0_segment" }

/-- C1 counterexample: a video-kind frame with a template configured, processed
with an audio-merge step that fails: `process` propagates the error, but the
temporary overlay-composited file is still on disk afterwards — the source
cleans it up only on the non-exception path, so the claimed "deleted on both
success and failure" is false. -/
theorem c1_counterexample :
    (process envMergeFail fVid sbW cTpl 1 emptyTrace).2
        = Except.error (Err.capabilityFailed "merge failed")
    ∧ overlayTempPath cTpl 0 ∈ ((process envMergeFail fVid sbW cTpl 1 emptyTrace).1).fs := by
  decide

/-- C1 (amended): for a video-kind frame processed with a frame template
configured, the temporary overlay-composited intermediate file does not exist
after `process` returns successfully; on failure of the subsequent audio-merge
step the cleanup does not run and the file can remain. -/
theorem c1_amended_cleanup_on_success (env : Env) (f : StoryboardFrame) (sb : Storyboard)
    (c : StoryboardConfig) (n : Nat) (tp : String) (f' : StoryboardFrame)
    (h1 : (process env f sb c n emptyTrace).2 = Except.ok f')
    (h2 : c.frame_template = some tp)
    (h3 : f'.media_type = some "video") :
    overlayTempPath c f'.index ∉ ((process env f sb c n emptyTrace).1).fs := by
  have hpair : process env f sb c n emptyTrace
      = ((process env f sb c n emptyTrace).1, Except.ok f') := by
    rw [← h1]
  simp only [process] at hpair
  obtain ⟨f1, hr1, hpair⟩ := pstep_ok_elim _ _ _ _ hpair
  obtain ⟨f2, hr2, hpair⟩ := pstep_ok_elim _ _ _ _ hpair
  obtain ⟨f3, hr3, hpair⟩ := pstep_ok_elim _ _ _ _ hpair
  obtain ⟨s, rfl⟩ := segment_frame_ok _ _ _ _ _ (congrArg Prod.snd hpair)
  have h3x : f3.media_type = some "video" := h3
  have hcx := compose_template_isSome _ _ _ _ _ _ _ h2 hr3
  exact segment_cleanup _ _ f3 _ _ _ h3x hcx hpair

theorem c1_amended_witness :
    overlayTempPath cTpl fVidDone.index ∉ ((process envOk fVid sbW cTpl 1 emptyTrace).1).fs :=
  c1_amended_cleanup_on_success envOk fVid sbW cTpl 1 "t.html" fVidDone
    (by decide) rfl (by decide)

def fPre : StoryboardFrame :=
  { index := 0, narration := "hi", audio_path := some "a.mp3",
    image_path := some "img.png", media_type := some "image" }

def cPlain : StoryboardConfig := { task_id := "task" }

/-- C2 counterexample: processing a frame with pre-supplied audio and
pre-supplied image succeeds, but the progress callback fires only twice (before
steps 3 and 4), not at "four fixed checkpoints": the step-1 and step-2
callbacks are conditional on those steps actually running. -/
theorem c2_counterexample :
    ((process envOk fPre sbW cPlain 1 emptyTrace).2).isOk = true
    ∧ ((process envOk fPre sbW cPlain 1 emptyTrace).1).events.length = 2 := by
  constructor
  · rfl
  · rfl

/-- C2 (amended): the callback is invoked before each step that actually runs
(before steps 1 and 2 only when audio synthesis / media generation execute,
always before steps 3 and 4 when reached), at most four times per frame, and
the progress fractions it receives are monotonically non-decreasing and lie
within [0,1]. -/
theorem c2_amended_progress_monotone (env : Env) (f : StoryboardFrame) (sb : Storyboard)
    (c : StoryboardConfig) (n : Nat) :
    ((process env f sb c n emptyTrace).1).events.length ≤ 4
    ∧ List.Chain' (fun a b => a ≤ b)
        (((process env f sb c n emptyTrace).1).events.map ProgressEvent.progress)
    ∧ ((process env f sb c n emptyTrace).1).events.all
        (fun e => decide (0 ≤ e.progress) && decide (e.progress ≤ 1)) = true := by
  rcases hb1 : (! optStrTruthy f.audio_path && optStrTruthy c.tts_inference_mode) with _ | _
  <;> rcases hb2 : f.image_prompt.isSome with _ | _
  <;> rcases hb3 : (f.image_path.isSome || f.video_path.isSome) with _ | _
  <;> simp only [process, pstep, hb1, hb2, hb3, Bool.false_eq_true, Bool.false_or,
        Bool.or_false, Bool.true_or, Bool.or_true, if_false, if_true, eq_self_iff_true]
  <;> repeat' split
  all_goals
    simp [audio_events_eq, media_events_eq, compose_events_eq, segment_events_eq,
      emptyTrace, List.chain'_cons]
  all_goals norm_num

/-- C3: if the configured media workflow identifier contains `"i2v_"`
(case-insensitively) and the config's source image URL is unset (falsy), then
processing a frame whose `image_prompt` is set yields the configuration error
naming the offending workflow and frame index, and the media-generation
capability is never invoked (zero recorded generation calls). -/
theorem c3_i2v_precondition (env : Env) (f : StoryboardFrame) (sb : Storyboard)
    (c : StoryboardConfig) (n : Nat)
    (hw : strContains (strToLower (workflowName c)) "i2v_" = true)
    (hurl : optStrTruthy c.source_image_url = false)
    (hp : f.image_prompt.isSome = true)
    (htts : ∀ pa, ∃ a, env.tts pa = Except.ok a)
    (hprobe : ∀ s, ∃ d, env.probeFormatDuration s = some d) :
    ((process env f sb c n emptyTrace).1).mediaCalls = []
    ∧ (process env f sb c n emptyTrace).2
        = Except.error (Err.i2vMissingImage (workflowName c) f.index) := by
  rcases hb1 : (! optStrTruthy f.audio_path && optStrTruthy c.tts_inference_mode) with _ | _
  · simp [process, pstep, hb1, hp, media_i2v_error, hw, hurl]
    simp [emptyTrace]
  · obtain ⟨a, d, ha⟩ := audio_ok env
        { emptyTrace with events := emptyTrace.events ++
          [{ event_type := "frame_step", progress := 0, frame_current := f.index + 1,
             frame_total := n, step := 1, action := "audio" }] } f c htts hprobe
    simp [process, pstep, hb1, hp, ha, media_i2v_error, hw, hurl]
    simp [emptyTrace]

def cI2V : StoryboardConfig :=
  { task_id := "task", media_workflow := some "selfhost/i2v_wan.json",
    tts_inference_mode := some "local" }

def fPrompt : StoryboardFrame := { index := 0, narration := "hi", image_prompt := some "a cat" }

theorem c3_witness :
    ((process envOk fPrompt sbW cI2V 1 emptyTrace).1).mediaCalls = []
    ∧ (process envOk fPrompt sbW cI2V 1 emptyTrace).2
        = Except.error (Err.i2vMissingImage "selfhost/i2v_wan.json" 0) :=
  c3_i2v_precondition envOk fPrompt sbW cI2V 1 (by decide) (by decide) (by decide)
    (fun _ => ⟨"tts.mp3", rfl⟩) (fun _ => ⟨3, rfl⟩)

/-- C4: for a video-kind workflow (identifier containing `"video_"` or
`"i2v_"` case-insensitively) and a frame whose duration is known (truthy, as
the source's `if frame.duration:` checks), the single generation call carries
exactly that duration. -/
theorem c4_duration_threading (env : Env) (f : StoryboardFrame) (c : StoryboardConfig) (D : ℚ)
    (hvid : (strContains (strToLower (workflowName c)) "video_"
      || strContains (strToLower (workflowName c)) "i2v_") = true)
    (hd : f.duration = some D) (hD : D ≠ 0)
    (hi2v : strContains (strToLower (workflowName c)) "i2v_" = true →
      optStrTruthy c.source_image_url = true) :
    ((step_generate_media env emptyTrace f c).1).mediaCalls.map MediaParams.duration
      = [some D] := by
  rw [media_calls_eq env emptyTrace f c hi2v]
  simp [emptyTrace, buildMediaParams_duration f c D hvid hd hD]

def cVid : StoryboardConfig :=
  { task_id := "task", media_workflow := some "selfhost/video_wan.json" }

def fDur : StoryboardFrame :=
  { index := 0, narration := "hi", image_prompt := some "a cat", duration := some (41/5) }

theorem c4_witness :
    ((step_generate_media envOk emptyTrace fDur cVid).1).mediaCalls.map MediaParams.duration
      = [some (41/5)] :=
  c4_duration_threading envOk fDur cVid (41/5) (by decide) rfl (by norm_num) (by decide)

/-- C5: for a generation result of video kind, the frame's final duration is
the result's own (truthy) duration when it carries one — overwriting any
audio-derived value — and is otherwise obtained by probing the downloaded
video file. -/
theorem c5_video_result_duration (env : Env) (f : StoryboardFrame) (c : StoryboardConfig)
    (r : MediaResult)
    (hi2v : strContains (strToLower (workflowName c)) "i2v_" = true →
      optStrTruthy c.source_image_url = true)
    (hm : env.media (buildMediaParams f c) = Except.ok r)
    (hv : r.media_type = "video")
    (hh : env.http_get r.url = Except.ok ()) :
    (optRatTruthy r.duration = true →
      ((step_generate_media env emptyTrace f c).2).map StoryboardFrame.duration
        = Except.ok r.duration)
    ∧ (r.duration = none →
      ((step_generate_media env emptyTrace f c).2).map StoryboardFrame.duration
        = Except.ok (some (get_video_duration env
            (get_task_frame_path c.task_id f.index "video")))) := by
  rw [media_ok_video env emptyTrace f c r hi2v hm hv hh]
  constructor
  · intro ht
    simp [ht, Except.map]
  · intro ht
    simp [ht, optRatTruthy, Except.map]

def rVid : MediaResult := { media_type := "video", url := "u", duration := some (99/10) }

def envVid : Env := { envOk with media := fun _ => .ok rVid }

theorem c5_witness :
    ((step_generate_media envVid emptyTrace fPrompt cPlain).2).map StoryboardFrame.duration
      = Except.ok rVid.duration :=
  (c5_video_result_duration envVid fPrompt cPlain rVid (by decide) rfl rfl rfl).1
    (by norm_num [rVid, optRatTruthy])

/-- C7 counterexample: on an input path whose metadata probe fails and whose
size query itself raises (the size query sits inside the `except` handler and
its `OSError` propagates), the audio duration prober raises instead of
returning the size heuristic — so "never raises, for every input path" is
false. -/
theorem c7_counterexample :
    get_audio_duration envProbeFail "missing.mp3" = Except.error (Err.osError "No such file") := by
  simp [get_audio_duration, envProbeFail]

/-- C7 (amended): on metadata-probe failure the video prober never raises and
returns the fixed 1.0-second default; the audio prober returns
`max(1.0, size/2000)` provided the file's size can be read (it raises when the
size query itself fails, see the counterexample). -/
theorem c7_amended_probe_fallback (env : Env) (p : String) (nbytes : Nat)
    (h1 : env.probeFormatDuration p = none)
    (h2 : env.getsize p = Except.ok nbytes) :
    get_video_duration env p = 1
    ∧ get_audio_duration env p = Except.ok (max 1 ((nbytes : ℚ) / 2000)) := by
  constructor
  · simp [get_video_duration, h1]
  · simp [get_audio_duration, h1, h2]

theorem c7_witness :
    get_video_duration envNoProbe "a.mp3" = 1
    ∧ get_audio_duration envNoProbe "a.mp3" = Except.ok (max 1 ((5000 : ℚ) / 2000)) :=
  c7_amended_probe_fallback envNoProbe "a.mp3" 5000 rfl rfl

/-- C8: image-kind (or unset-kind) segment assembly: the visual source is the
composed image if truthy else the raw image; if neither is usable the
configuration error naming the frame index is raised with no video-service
call; with narration audio the segment is synthesized from the still at the
configured fps with no explicit duration (duration implied by the audio);
without audio a silent video is synthesized with the frame's truthy duration
or the 5-second default. -/
theorem c8_image_assembly (env : Env) (f : StoryboardFrame) (c : StoryboardConfig)
    (h : f.media_type = some "image" ∨ f.media_type = none) :
    (optStrTruthy (imageToUse f) = false →
      step_create_video_segment env emptyTrace f c
        = (emptyTrace, Except.error (Err.noImageAvailable f.index)))
    ∧ (optStrTruthy (imageToUse f) = true → optStrTruthy f.audio_path = true →
      ((step_create_video_segment env emptyTrace f c).1).videoCalls
        = [VCall.create { image := (imageToUse f).getD ""
                          audio := f.audio_path
                          output := get_task_frame_path c.task_id f.index "segment"
                          fps := c.video_fps
                          duration := none }])
    ∧ (optStrTruthy (imageToUse f) = true → optStrTruthy f.audio_path = false →
      ((step_create_video_segment env emptyTrace f c).1).videoCalls
        = [VCall.create { image := (imageToUse f).getD ""
                          audio := none
                          output := get_task_frame_path c.task_id f.index "segment"
                          fps := c.video_fps
                          duration := some (if optRatTruthy f.duration then f.duration.getD 0 else 5) }]) := by
  have hvne : (f.media_type == some "video") = false := by
    rcases h with hi | hi <;> simp [hi]
  have him : (f.media_type == some "image" || f.media_type == none) = true := by
    rcases h with hi | hi <;> simp [hi]
  refine ⟨?_, ?_, ?_⟩
  · intro hsrc
    simp [step_create_video_segment, hvne, him, hsrc]
  · intro hsrc haud
    simp only [step_create_video_segment, hvne, him, hsrc, haud, Bool.false_eq_true,
      if_false, if_true, eq_self_iff_true, Bool.not_true]
    split <;> simp [emptyTrace]
  · intro hsrc haud
    simp only [step_create_video_segment, hvne, him, hsrc, haud, Bool.false_eq_true,
      if_false, if_true, eq_self_iff_true, Bool.not_true, Bool.not_false]
    split <;> simp [emptyTrace]

def fImgAud : StoryboardFrame :=
  { index := 0, narration := "hi", audio_path := some "a.mp3",
    image_path := some "img.png", media_type := some "image" }

theorem c8_witness :
    ((step_create_video_segment envOk emptyTrace fImgAud cPlain).1).videoCalls
      = [VCall.create { image := (imageToUse fImgAud).getD ""
                        audio := fImgAud.audio_path
                        output := get_task_frame_path cPlain.task_id fImgAud.index "segment"
                        fps := cPlain.video_fps
                        duration := none }] :=
  (c8_image_assembly envOk fImgAud cPlain (Or.inl rfl)).2.1 (by decide) (by decide)

def fImgEmpty : StoryboardFrame :=
  { index := 0, narration := "hi", media_type := some "image", image_path := some "" }

/-- C9 counterexample: with no template configured, an image-kind frame whose
raw image path is the empty string gets `composed_image_path = None`, not the
raw image path (`""` is falsy in the source's `elif` chain) — so the claimed
"set to the raw image path for image frames" fails at this input. -/
theorem c9_counterexample :
    ((step_compose_frame envOk emptyTrace fImgEmpty sbW cPlain).2).map
        (fun fr => fr.composed_image_path) = Except.ok none
    ∧ fImgEmpty.image_path = some "" := by
  constructor
  · rfl
  · rfl

/-- C9 (amended): with no template configured, composition is skipped and
`composed_image_path` is left unset for video frames; for image frames it is
set to the raw image path, except that an empty-string image path (falsy in
the source) leaves it unset. -/
theorem c9_amended_compose_skip (env : Env) (t : PTrace) (f : StoryboardFrame)
    (sb : Storyboard) (c : StoryboardConfig)
    (h : c.frame_template = none) :
    (f.media_type = some "video" →
      ((step_compose_frame env t f sb c).2).map (fun fr => fr.composed_image_path)
        = Except.ok none)
    ∧ (f.media_type = some "image" → f.image_path ≠ some "" →
      ((step_compose_frame env t f sb c).2).map (fun fr => fr.composed_image_path)
        = Except.ok f.image_path)
    ∧ (f.media_type = some "image" → f.image_path = some "" →
      ((step_compose_frame env t f sb c).2).map (fun fr => fr.composed_image_path)
        = Except.ok none) := by
  refine ⟨?_, ?_, ?_⟩
  · intro hv
    cases hb : optStrTruthy f.video_path <;>
      simp [step_compose_frame, h, hv, hb, Except.map]
  · intro hi hne
    rcases hip : f.image_path with _ | s
    · simp [step_compose_frame, h, hi, hip, optStrTruthy, Except.map]
    · have hs : s ≠ "" := by
        intro h0
        exact hne (by rw [hip, h0])
      simp [step_compose_frame, h, hi, hip, optStrTruthy, hs, Except.map]
  · intro hi hemp
    simp [step_compose_frame, h, hi, hemp, optStrTruthy, Except.map]

theorem c9_witness :
    ((step_compose_frame envOk emptyTrace fPre sbW cPlain).2).map
        (fun fr => fr.composed_image_path) = Except.ok fPre.image_path :=
  (c9_amended_compose_skip envOk emptyTrace fPre sbW cPlain rfl).2.1 rfl (by decide)

theorem compose_renderCalls_none (env : Env) (t : PTrace) (f : StoryboardFrame)
    (sb : Storyboard) (c : StoryboardConfig) (h : c.frame_template = none) :
    ((step_compose_frame env t f sb c).1).renderCalls = t.renderCalls := by
  simp only [step_compose_frame, h]
  repeat' split
  all_goals rfl

theorem compose_renderCalls_some (env : Env) (t : PTrace) (f : StoryboardFrame)
    (sb : Storyboard) (c : StoryboardConfig) (tp : String) (h : c.frame_template = some tp) :
    ((step_compose_frame env t f sb c).1).renderCalls
      = t.renderCalls ++ [buildRenderArgs f sb c tp] := by
  simp only [step_compose_frame, h]
  split
  all_goals rfl

theorem segment_map_image (env : Env) (t : PTrace) (f : StoryboardFrame) (c : StoryboardConfig) :
    ((step_create_video_segment env t f c).2).map (fun fr => fr.image_path)
      = ((step_create_video_segment env t f c).2).map (fun _ => f.image_path) := by
  rcases hs : (step_create_video_segment env t f c).2 with e | f4
  · simp [Except.map]
  · obtain ⟨s, rfl⟩ := segment_frame_ok _ _ _ _ _ hs
    simp [Except.map]

theorem compose_renderCalls_all (env : Env) (t : PTrace) (f : StoryboardFrame)
    (sb : Storyboard) (c : StoryboardConfig) (p : String)
    (ht : t.renderCalls = [])
    (hmv : (f.media_type == some "video") = false)
    (hip : f.image_path = some p) :
    ((step_compose_frame env t f sb c).1).renderCalls.all
      (fun a => a.image == some p) = true := by
  rcases htpl : c.frame_template with _ | tp
  · rw [compose_renderCalls_none env t f sb c htpl, ht]
    rfl
  · rw [compose_renderCalls_some env t f sb c tp htpl, ht]
    simp [buildRenderArgs, hmv, hip]

/-- C6: a frame with `image_path` pre-set and `image_prompt` unset never
invokes the media-generation capability; every composition call receives the
pre-set image as its visual base, and the processed frame (on success) still
carries that image path for assembly. -/
theorem c6_skip_on_existing (env : Env) (f : StoryboardFrame) (sb : Storyboard)
    (c : StoryboardConfig) (n : Nat) (p : String)
    (h1 : f.image_path = some p)
    (h2 : f.image_prompt = none)
    (h4 : f.media_type ≠ some "video") :
    ((process env f sb c n emptyTrace).1).mediaCalls = []
    ∧ ((process env f sb c n emptyTrace).1).renderCalls.all
        (fun a => a.image == some p) = true
    ∧ ((process env f sb c n emptyTrace).2).map (fun fr => fr.image_path)
      = ((process env f sb c n emptyTrace).2).map (fun _ => some p) := by
  have hbneeds : f.image_prompt.isSome = false := by simp [h2]
  have hbhas : (f.image_path.isSome || f.video_path.isSome) = true := by simp [h1]
  have hmv : (f.media_type == some "video") = false := beq_eq_false_iff_ne.mpr h4
  rcases hb1 : (! optStrTruthy f.audio_path && optStrTruthy c.tts_inference_mode) with _ | _ <;>
    simp only [process, pstep, hbneeds, hbhas, hb1, Bool.false_eq_true, Bool.false_or,
      Bool.or_true, Bool.true_or, if_false, if_true, eq_self_iff_true,
      audio_mediaCalls_eq, audio_renderCalls_eq]
  · split
    next e heqC =>
      refine ⟨?_, ?_, ?_⟩
      · simp [compose_mediaCalls_eq, emptyTrace]
      · exact compose_renderCalls_all _ _ _ _ _ _ rfl hmv h1
      · simp [Except.map]
    next f3 heqC =>
      refine ⟨?_, ?_, ?_⟩
      · simp [segment_mediaCalls_eq, compose_mediaCalls_eq, emptyTrace]
      · rw [segment_renderCalls_eq]
        exact compose_renderCalls_all _ _ _ _ _ _ rfl hmv h1
      · rw [segment_map_image]
        obtain ⟨o, rfl⟩ := compose_frame_ok _ _ _ _ _ _ heqC
        simp [h1]
  · split
    next e heq1 =>
      refine ⟨?_, ?_, ?_⟩
      · simp [audio_mediaCalls_eq, emptyTrace]
      · simp [audio_renderCalls_eq, emptyTrace]
      · simp [Except.map]
    next f1 heq1 =>
      obtain ⟨a, d, rfl⟩ := audio_frame_ok _ _ _ _ _ heq1
      split
      next e heqC =>
        refine ⟨?_, ?_, ?_⟩
        · simp [compose_mediaCalls_eq, emptyTrace]
        · exact compose_renderCalls_all _ _ _ _ _ _ rfl hmv h1
        · simp [Except.map]
      next f3 heqC =>
        refine ⟨?_, ?_, ?_⟩
        · simp [segment_mediaCalls_eq, compose_mediaCalls_eq, emptyTrace]
        · rw [segment_renderCalls_eq]
          exact compose_renderCalls_all _ _ _ _ _ _ rfl hmv h1
        · rw [segment_map_image]
          obtain ⟨o, rfl⟩ := compose_frame_ok _ _ _ _ _ _ heqC
          simp [h1]

def cTplNoTts : StoryboardConfig := { task_id := "task", frame_template := some "t.html" }

theorem c6_witness :
    ((process envOk fPre sbW cTplNoTts 1 emptyTrace).1).mediaCalls = []
    ∧ ((process envOk fPre sbW cTplNoTts 1 emptyTrace).1).renderCalls.all
        (fun a => a.image == some "img.png") = true
    ∧ ((process envOk fPre sbW cTplNoTts 1 emptyTrace).2).map (fun fr => fr.image_path)
      = ((process envOk fPre sbW cTplNoTts 1 emptyTrace).2).map (fun _ => some "img.png") :=
  c6_skip_on_existing envOk fPre sbW cTplNoTts 1 "img.png" rfl rfl (by decide)

/-- C10: a set `image_prompt` takes precedence over pre-supplied media: the
media-generation step runs (exactly one generation call is recorded) even when
`image_path` or `video_path` was pre-set, and the generated result overwrites
the frame's `media_type` and kind-appropriate path with the downloaded local
path. -/
theorem c10_prompt_precedence (env : Env) (f : StoryboardFrame) (sb : Storyboard)
    (c : StoryboardConfig) (n : Nat) (q : String) (r : MediaResult)
    (h1 : f.image_prompt = some q)
    (h2 : f.image_path.isSome ∨ f.video_path.isSome)
    (htts : ∀ pa, ∃ a, env.tts pa = Except.ok a)
    (hprobe : ∀ s, ∃ d, env.probeFormatDuration s = some d)
    (hi2v : strContains (strToLower (workflowName c)) "i2v_" = true →
      optStrTruthy c.source_image_url = true)
    (hm : env.media (buildMediaParams f c) = Except.ok r)
    (hh : env.http_get r.url = Except.ok ()) :
    ((process env f sb c n emptyTrace).1).mediaCalls.length = 1
    ∧ (r.media_type = "image" →
        ((step_generate_media env emptyTrace f c).2).map
            (fun fr => (fr.media_type, fr.image_path))
          = Except.ok (some "image", some (get_task_frame_path c.task_id f.index "image")))
    ∧ (r.media_type = "video" →
        ((step_generate_media env emptyTrace f c).2).map
            (fun fr => (fr.media_type, fr.video_path))
          = Except.ok (some "video", some (get_task_frame_path c.task_id f.index "video"))) := by
  have hbneeds : f.image_prompt.isSome = true := by simp [h1]
  have hmedia : ∀ (t : PTrace) (fr : StoryboardFrame),
      ((step_generate_media env t fr c).1).mediaCalls
        = t.mediaCalls ++ [buildMediaParams fr c] :=
    fun t fr => media_calls_eq env t fr c hi2v
  refine ⟨?_, ?_, ?_⟩
  · rcases hb1 : (! optStrTruthy f.audio_path && optStrTruthy c.tts_inference_mode) with _ | _
    · simp only [process, pstep, hbneeds, hb1, Bool.false_eq_true, if_false, if_true,
        eq_self_iff_true]
      repeat' split
      all_goals simp_all [hmedia, compose_mediaCalls_eq, segment_mediaCalls_eq, emptyTrace]
    · obtain ⟨a, d, ha⟩ := audio_ok env
          { emptyTrace with events := emptyTrace.events ++
            [{ event_type := "frame_step", progress := 0, frame_current := f.index + 1,
               frame_total := n, step := 1, action := "audio" }] } f c htts hprobe
      simp only [process, pstep, hbneeds, hb1, if_true, eq_self_iff_true, ha]
      repeat' split
      all_goals simp_all [hmedia, compose_mediaCalls_eq, segment_mediaCalls_eq, emptyTrace]
  · intro hri
    rw [media_ok_image env emptyTrace f c r hi2v hm hri hh]
    simp [Except.map]
  · intro hrv
    rw [media_ok_video env emptyTrace f c r hi2v hm hrv hh]
    simp [Except.map]

def fBoth : StoryboardFrame :=
  { index := 0, narration := "hi", image_prompt := some "a cat", image_path := some "old.png" }

theorem c10_witness :
    ((process envOk fBoth sbW cPlain 1 emptyTrace).1).mediaCalls.length = 1
    ∧ ((step_generate_media envOk emptyTrace fBoth cPlain).2).map
          (fun fr => (fr.media_type, fr.image_path))
        = Except.ok (some "image", some (get_task_frame_path cPlain.task_id fBoth.index "image")) :=
  ⟨(c10_prompt_precedence envOk fBoth sbW cPlain 1 "a cat" { media_type := "image", url := "u" }
      rfl (Or.inl rfl) (fun _ => ⟨"tts.mp3", rfl⟩) (fun _ => ⟨3, rfl⟩) (by decide) rfl rfl).1,
   (c10_prompt_precedence envOk fBoth sbW cPlain 1 "a cat" { media_type := "image", url := "u" }
      rfl (Or.inl rfl) (fun _ => ⟨"tts.mp3", rfl⟩) (fun _ => ⟨3, rfl⟩) (by decide) rfl rfl).2.1 rfl⟩

end PV
